import Mathlib

/-!
Verification development for the ice-crystal morphometry CSV summary pipeline
(`ice_morphometry_csv_summary.py`).  The aggregation pipeline
(`reindex_and_analyze` and its helpers) is shallowly embedded: parsed CSV
tables become lists of association-list rows, pandas group-by statistics
become explicit list computations over `ℚ`, fallible steps return `Except`,
and the two black-box system measurements (disk throughput, CPU load) are
injected as parameters.  Floating-point arithmetic is modelled by exact
rational arithmetic; a pandas `NaN` cell is the explicit `Value.nan`.
-/

namespace IceMorphometry

/-- A cell value of a parsed CSV table: a number, a string, or a missing
value (pandas `NaN`). -/
inductive Value where
  | num (q : ℚ)
  | str (s : String)
  | nan
  deriving DecidableEq

/-- A parsed input CSV file: its file name and its table, given by the header
(column names) and the rows.  A row is an association list from column name
to value; a column absent from a row reads as `nan` (pandas alignment). -/
structure CsvFile where
  name : String
  columns : List String
  rows : List (List (String × Value))
  deriving DecidableEq

instance : DecidableRel (fun a b : CsvFile => a.name ≤ b.name) :=
  fun a b => decidable_of_iff (a.name.toList ≤ b.name.toList) String.le_iff_toList_le.symm

/-- `sorted(in_path.glob("*_morphometry_results.csv"))` (line 125): the
matched files in lexicographically sorted order of their names. -/
def discoverFiles (files : List CsvFile) : List CsvFile :=
  List.insertionSort (fun a b => a.name ≤ b.name) files

/-- One input file together with its assigned frame index and derived times
(lines 171-180): the file at 1-based sorted position `i` gets `Frame = i`,
`TimeSec = (i - 1) * interval`, `TimeMin = TimeSec / 60`. -/
structure FramedFile where
  frame : ℕ
  timeSec : ℚ
  timeMin : ℚ
  file : CsvFile
  deriving DecidableEq

instance : Inhabited FramedFile := ⟨⟨0, 0, 0, ⟨"", [], []⟩⟩⟩

/-- The `for i, csv_file in enumerate(csv_files, start=1)` loop's frame/time
assignment (lines 171-178), written with the 0-based index `k = i - 1`:
`Frame = k + 1`, `TimeSec = k * interval`, `TimeMin = TimeSec / 60`. -/
def assignFrames (interval : ℚ) (files : List CsvFile) : List FramedFile :=
  files.enum.map fun p => ⟨p.1 + 1, p.1 * interval, p.1 * interval / 60, p.2⟩

/-- One row of the merged dataset: the originating file's row plus the four
derived columns attached by the reading loop (lines 176-179). -/
structure MergedRow where
  frame : ℕ
  timeSec : ℚ
  timeMin : ℚ
  sourceFile : String
  cells : List (String × Value)
  deriving DecidableEq

/-- Cell lookup in a merged row.  The four derived columns win over any
same-named source column because the loop assigns them last (lines 176-179
overwrite); any other absent column reads as `nan` (`pd.concat` alignment,
line 182). -/
def MergedRow.getCell (r : MergedRow) (c : String) : Value :=
  if c = "Frame" then .num r.frame
  else if c = "TimeSec" then .num r.timeSec
  else if c = "TimeMin" then .num r.timeMin
  else if c = "SourceFile" then .str r.sourceFile
  else
    match r.cells.find? (fun p => p.1 == c) with
    | some p => p.2
    | none => .nan

/-- `pd.concat(all_data, ignore_index=True)` (line 182): all rows in file
order, then row order within each file, each row carrying its file's frame
data. -/
def mergeRows (interval : ℚ) (files : List CsvFile) : List MergedRow :=
  (assignFrames interval files).flatMap fun ff =>
    ff.file.rows.map fun row => ⟨ff.frame, ff.timeSec, ff.timeMin, ff.file.name, row⟩

/-- The four columns attached to every per-file table (lines 176-179). -/
def derivedColumns : List String := ["Frame", "TimeSec", "TimeMin", "SourceFile"]

/-- Union of column lists keeping first-appearance order. -/
def appendNew (acc new : List String) : List String :=
  acc ++ new.filter (fun c => !acc.contains c)

/-- The merged dataset's column list: each per-file table has the file's
columns followed by the four derived columns, and `pd.concat` unions the
column lists in order of first appearance. -/
def mergedColumns (files : List CsvFile) : List String :=
  files.foldl (fun acc f => appendNew acc (f.columns ++ derivedColumns)) []

/-- The distinct keys of `df_all.groupby("Frame")`, in ascending order
(pandas sorts group keys). -/
def framesOf (rows : List MergedRow) : List ℕ :=
  List.insertionSort (fun a b => a ≤ b) (rows.map (fun r => r.frame)).dedup

/-- The rows of one `Frame` group. -/
def groupRows (rows : List MergedRow) (f : ℕ) : List MergedRow :=
  rows.filter (fun r => r.frame == f)

/-- The non-null numeric entries of column `c` among the given rows: pandas
aggregations skip `NaN` (`skipna`), so these are the contributing entries of
a group. -/
def numericEntries (rows : List MergedRow) (c : String) : List ℚ :=
  rows.filterMap fun r =>
    match r.getCell c with
    | .num q => some q
    | _ => none

/-- The `count` aggregate: number of contributing (non-null) entries of
column `c` in the `Frame = f` group. -/
def groupCount (rows : List MergedRow) (f : ℕ) (c : String) : ℕ :=
  (numericEntries (groupRows rows f) c).length

/-- The `mean` aggregate of column `c` in the `Frame = f` group: arithmetic
mean of the contributing entries, `NaN` when none contribute. -/
def groupMean (rows : List MergedRow) (f : ℕ) (c : String) : Value :=
  let vals := numericEntries (groupRows rows f) c
  if vals.length = 0 then .nan else .num (vals.sum / vals.length)

/-- The `std` aggregate, represented by its square: the sample variance
(`ddof = 1`) of the contributing entries, `none` (pandas `NaN`) when fewer
than 2 contribute.  The code's `std` is the square root of this value; the
square root does not stay in `ℚ`, and `x ↦ √x` is a monotone injection on
nonnegative arguments, preserving definedness (`NaN`-ness) and sign, so the
development works with the square throughout. -/
def groupVariance (rows : List MergedRow) (f : ℕ) (c : String) : Option ℚ :=
  let vals := numericEntries (groupRows rows f) c
  if vals.length < 2 then none
  else
    let m := vals.sum / vals.length
    some ((vals.map (fun x => (x - m) ^ 2)).sum / ((vals.length - 1 : ℕ) : ℚ))

/-- The `sem` aggregate, represented by its square: `sem = std / √count`, so
`sem² = variance / count`; `NaN` in exactly the cases `std` is. -/
def groupSemSq (rows : List MergedRow) (f : ℕ) (c : String) : Option ℚ :=
  (groupVariance rows f c).map fun v => v / ((groupCount rows f c : ℕ) : ℚ)

/-- An optional statistic as a table cell (`none` is pandas `NaN`). -/
def optValue : Option ℚ → Value
  | some q => .num q
  | none => .nan

/-- `df_all.groupby("Frame")[selected_columns].mean().reset_index()`
(lines 218 and 267): one row per frame, the frame followed by the per-column
means. -/
def averageTable (rows : List MergedRow) (cols : List String) : List (List Value) :=
  (framesOf rows).map fun (f : ℕ) => .num f :: cols.map fun c => groupMean rows f c

/-- One `[mean, std, sem, count]` block of the multi-statistic aggregation
(line 233); `std` and `sem` are represented by their squares (see
`groupVariance`). -/
def statBlock (rows : List MergedRow) (f : ℕ) (c : String) : List Value :=
  [groupMean rows f c, optValue (groupVariance rows f c),
   optValue (groupSemSq rows f c), .num (groupCount rows f c)]

/-- The flattened per-frame statistics table (lines 230-241): after
`reset_index`, each row is the frame followed by the per-column
`[mean, std, sem, count]` blocks in selected-column order. -/
def flatStatsTable (rows : List MergedRow) (cols : List String) : List (List Value) :=
  (framesOf rows).map fun (f : ℕ) => .num f :: (cols.map fun c => statBlock rows f c).flatten

/-- The flattened column names `"{col}_{stat}"` (lines 238-240), after
`reset_index` prepends `Frame`. -/
def flatHeader (cols : List String) : List String :=
  "Frame" :: (cols.map fun c => [c ++ "_mean", c ++ "_std", c ++ "_sem", c ++ "_count"]).flatten

/-- One serialized merged-dataset row: its fields in merged-column order
(pandas `to_csv` is modelled to the field level; the artifact's bytes are a
fixed rendering of these fields). -/
def rowFields (columns : List String) (r : MergedRow) : List Value :=
  columns.map fun c => r.getCell c

/-- The error outcomes of the embedded pipeline. -/
inductive PipelineError where
  /-- `FileNotFoundError` (lines 120-127). -/
  | notFoundError (msg : String)
  /-- pandas `KeyError` from `groupby(...)[selected_columns]` when some
  selected column is absent (lines 218 and 232). -/
  | keyError (missing : List String)
  /-- the explicit `ValueError` check (lines 224-226). -/
  | valueError (missing : List String)
  deriving DecidableEq

/-- The selected columns absent from the merged schema, in selection order
(line 224). -/
def missingColumns (columns cols : List String) : List String :=
  cols.filter fun c => !columns.contains c

/-- `df_all.groupby("Frame")[selected_columns]` (lines 218 and 232): pandas
raises `KeyError` listing the columns not found when any selected column is
absent from the dataset. -/
def selectForGroupby (columns cols : List String) : Except PipelineError Unit :=
  if missingColumns columns cols = [] then .ok ()
  else .error (.keyError (missingColumns columns cols))

/-- The explicit missing-column check (lines 224-226), raising `ValueError`
with the complete list of missing names. -/
def checkSelectedColumns (columns cols : List String) : Except PipelineError Unit :=
  if missingColumns columns cols = [] then .ok ()
  else .error (.valueError (missingColumns columns cols))

/-- The execution plan: whether to parallelize and with how many workers. -/
structure ExecutionPlan where
  parallel : Bool
  workerCount : ℕ
  deriving DecidableEq

/-- The decision logic of lines 136-158: start from the caller's choice,
downgrade to sequential when disk throughput is below 50 MB/s or at most two
columns are selected. -/
def determineParallel (diskSpeed : ℚ) (nCols : ℕ) (useParallel : Bool) : Bool :=
  if diskSpeed < 50 then false
  else if nCols ≤ 2 then false
  else useParallel

/-- Lines 136-167 as one plan: `num_workers = min(os.cpu_count(), 8)` is
computed only when parallel mode survives (line 163); a sequential plan runs
in the single main process. -/
def choosePlan (diskSpeed : ℚ) (nCols cpuCount : ℕ) (useParallel : Bool) : ExecutionPlan :=
  let p := determineParallel diskSpeed nCols useParallel
  ⟨p, if p then min cpuCount 8 else 1⟩

/-- `test_disk_write_speed` (lines 17-26).  The possibility that a chunk
write raises (`IOError`, e.g. disk full) is modelled by `writeOk`; `elapsed`
is the measured wall time of the loop.  The first component is the returned
throughput or the propagated exception; the second records whether the
scratch file still exists on return: `os.remove(test_path)` (line 25) sits
after the `with` block on the straight-line path only, so an exception in the
write loop skips it. -/
def test_disk_write_speed (writeOk : ℕ → Bool) (elapsed : ℚ) : Except Unit ℚ × Bool :=
  if (List.range 100).all writeOk then (.ok (100 / elapsed), false)
  else (.error (), true)

/-- One plotted line: `plt.plot(df["Frame"], df[col])` over the mean-only
table (lines 58-63). -/
structure ChartSeries where
  label : String
  points : List (ℚ × Value)
  deriving DecidableEq

/-- The persisted outputs of one run: the raw-data artifact (name and rows of
fields), the summary artifact, and the chart.  A header row holds the column
names as string fields. -/
structure Artifacts where
  rawName : String
  raw : List (List Value)
  summaryName : String
  summary : List (List Value)
  chartName : String
  chart : List ChartSeries
  deriving DecidableEq

/-- A successful run's observable results: the artifacts, the console
diagnostics, and the order in which input files were parsed. -/
structure Output where
  artifacts : Artifacts
  log : List String
  processedOrder : List String
  deriving DecidableEq

/-- `reindex_and_analyze` (lines 99-282).  `files` stands for the glob
matches in the input folder, `baseName` for the input folder's base name,
and `diskSpeed`/`cpuLoad` inject the two black-box system measurements
(lines 133 and 256).  The reading loop is the sequential `for` of line 171
over the sorted file list; the execution plan is computed (lines 136-167)
and reported but nothing else consumes it. -/
def reindex_and_analyze (files : List CsvFile) (cols : List String) (interval : ℚ)
    (useParallel : Bool) (baseName timestamp : String) (diskSpeed cpuLoad : ℚ)
    (cpuCount : ℕ) : Except PipelineError Output :=
  if files = [] then
    .error (.notFoundError "No CSV files matching in input folder.")
  else
    -- raw-artifact averages (line 218): pandas selects `cols`, KeyError if absent
    match selectForGroupby (mergedColumns (discoverFiles files)) cols with
    | .error e => .error e
    | .ok _ =>
      -- explicit check (lines 224-226), reached only when nothing was missing
      match checkSelectedColumns (mergedColumns (discoverFiles files)) cols with
      | .error e => .error e
      | .ok _ =>
        -- statistics aggregation's own column selection (line 232)
        match selectForGroupby (mergedColumns (discoverFiles files)) cols with
        | .error e => .error e
        | .ok _ =>
          .ok
            ⟨⟨baseName ++ "_raw_data_" ++ timestamp ++ ".csv",
              -- the three `to_csv` appends of lines 210-219
              ((mergedColumns (discoverFiles files)).map Value.str
                  :: (mergeRows interval (discoverFiles files)).map
                      (rowFields (mergedColumns (discoverFiles files))))
                ++ [List.replicate (mergedColumns (discoverFiles files)).length
                      (Value.str "NaN")]
                ++ (("Frame" :: cols).map Value.str
                    :: averageTable (mergeRows interval (discoverFiles files)) cols),
              baseName ++ "_summary_stats_" ++ timestamp ++ ".csv",
              -- the flattened statistics write of lines 236-242
              (flatHeader cols).map Value.str
                :: flatStatsTable (mergeRows interval (discoverFiles files)) cols,
              baseName ++ "_metrics_vs_frame.png",
              -- the chart of lines 264-278: one mean series per selected column
              cols.map fun c =>
                ⟨c, (framesOf (mergeRows interval (discoverFiles files))).map
                    fun (f : ℕ) =>
                      ((f : ℚ), groupMean (mergeRows interval (discoverFiles files)) f c)⟩⟩,
             -- console diagnostics (lines 130-167, 257): the only consumers of
             -- the measurements and the plan
             ["Disk write speed: " ++ toString diskSpeed,
              "Parallel processing enabled: "
                ++ toString (choosePlan diskSpeed cols.length cpuCount useParallel).parallel,
              "Workers: "
                ++ toString (choosePlan diskSpeed cols.length cpuCount useParallel).workerCount,
              "CPU load: " ++ toString cpuLoad],
             -- the sequential reading order of the loop at line 171
             (discoverFiles files).map fun f => f.name⟩

/-- Whether a pipeline run succeeded. -/
def succeeded (r : Except PipelineError Output) : Bool :=
  match r with
  | .ok _ => true
  | .error _ => false

/-- The output of a successful run (junk on the error branch); used to
instantiate theorems at concrete runs. -/
def extractOutput (r : Except PipelineError Output) : Output :=
  match r with
  | .ok o => o
  | .error _ => ⟨⟨"", [], "", [], "", []⟩, [], []⟩

/-- A concrete example input file with two rows. -/
def fileA : CsvFile :=
  ⟨"a_morphometry_results.csv", ["Diameter"],
    [[("Diameter", .num 2)], [("Diameter", .num 4)]]⟩

/-- A second concrete example input file with one row. -/
def fileB : CsvFile :=
  ⟨"b_morphometry_results.csv", ["Diameter"],
    [[("Diameter", .num 6)]]⟩

/-- The merged dataset of the two example files at a 5-second interval. -/
def exampleRows : List MergedRow :=
  mergeRows 5 (discoverFiles [fileA, fileB])

instance : IsTotal CsvFile (fun a b => a.name ≤ b.name) :=
  ⟨fun a b => le_total a.name b.name⟩

instance : IsTrans CsvFile (fun a b => a.name ≤ b.name) :=
  ⟨fun _ _ _ h h2 => le_trans h h2⟩

theorem discoverFiles_sorted (files : List CsvFile) :
    (discoverFiles files).Sorted (fun a b => a.name ≤ b.name) :=
  List.sorted_insertionSort (fun a b => a.name ≤ b.name) files

theorem length_discoverFiles (files : List CsvFile) :
    (discoverFiles files).length = files.length := by
  unfold discoverFiles
  exact List.length_insertionSort _ files

theorem assignFrames_getElem? (interval : ℚ) (files : List CsvFile) (i : ℕ) :
    (assignFrames interval files)[i]?
      = files[i]?.map fun f => ⟨i + 1, i * interval, i * interval / 60, f⟩ := by
  simp only [assignFrames, List.getElem?_map, List.getElem?_enum]
  cases files[i]? <;> rfl

theorem enumFrom_map_succ_fst {α : Type} :
    ∀ (n : ℕ) (l : List α), (List.enumFrom n l).map (fun p => p.1 + 1) = List.range' (n + 1) l.length
  | _, [] => rfl
  | n, _ :: l => by
    simp only [List.enumFrom, List.map_cons, List.length_cons, List.range'_succ,
      List.range', enumFrom_map_succ_fst (n + 1) l]

theorem assignFrames_map_frame (interval : ℚ) (files : List CsvFile) :
    (assignFrames interval files).map FramedFile.frame = List.range' 1 files.length := by
  have h := enumFrom_map_succ_fst 0 files
  simpa [assignFrames, List.map_map, Function.comp, List.enum] using h

end IceMorphometry

namespace IceMorphometry

/-- C5: the matched input files are processed in lexicographically sorted
order; the file at sorted 0-based position `i` (1-based position `i + 1`)
receives `Frame = i + 1`, `TimeSec = i * interval`, `TimeMin = TimeSec / 60`;
and the `Frame` values over the run are exactly the contiguous range
`1 .. N` for `N` matched files. -/
theorem frame_assignment_contiguous (files : List CsvFile) (interval : ℚ) (i : ℕ)
    (hi : i < files.length) :
    ((assignFrames interval (discoverFiles files)).getD i default).frame = i + 1 ∧
    ((assignFrames interval (discoverFiles files)).getD i default).timeSec = i * interval ∧
    ((assignFrames interval (discoverFiles files)).getD i default).timeMin = i * interval / 60 ∧
    (assignFrames interval (discoverFiles files)).map FramedFile.frame
      = List.range' 1 files.length ∧
    (discoverFiles files).Sorted (fun a b => a.name ≤ b.name) := by
  have hi' : i < (discoverFiles files).length := by rwa [length_discoverFiles]
  have hrow : (assignFrames interval (discoverFiles files)).getD i default
      = ⟨i + 1, i * interval, i * interval / 60, (discoverFiles files).get ⟨i, hi'⟩⟩ := by
    rw [List.getD_eq_getElem?_getD, assignFrames_getElem?,
      List.getElem?_eq_getElem hi']
    rfl
  refine ⟨?_, ?_, ?_, ?_, discoverFiles_sorted files⟩
  · rw [hrow]
  · rw [hrow]
  · rw [hrow]
  · rw [assignFrames_map_frame, length_discoverFiles]

/-- C5 witness: at two concrete files and position 0. -/
theorem frame_assignment_contiguous_witness :
    0 < ([fileB, fileA] : List CsvFile).length ∧
    (((assignFrames 5 (discoverFiles [fileB, fileA])).getD 0 default).frame = 0 + 1 ∧
     ((assignFrames 5 (discoverFiles [fileB, fileA])).getD 0 default).timeSec = 0 * 5 ∧
     ((assignFrames 5 (discoverFiles [fileB, fileA])).getD 0 default).timeMin = 0 * 5 / 60 ∧
     (assignFrames 5 (discoverFiles [fileB, fileA])).map FramedFile.frame
       = List.range' 1 ([fileB, fileA] : List CsvFile).length ∧
     (discoverFiles [fileB, fileA]).Sorted (fun a b => a.name ≤ b.name)) :=
  ⟨by decide, frame_assignment_contiguous [fileB, fileA] 5 0 (by decide)⟩

/-- C3: the execution-mode decision.  Throughput below 50 MB/s forces a
sequential plan regardless of opt-in; at most two selected columns forces a
sequential plan; otherwise the plan is parallel exactly when the caller
opted in, and a surviving parallel plan gets `min(cpu_count, 8)` workers;
a caller that disabled parallelism never gets a parallel plan. -/
theorem choosePlan_policy (d : ℚ) (n cpu : ℕ) (o : Bool) :
    (d < 50 → (choosePlan d n cpu o).parallel = false) ∧
    (50 ≤ d → n ≤ 2 → (choosePlan d n cpu o).parallel = false) ∧
    (50 ≤ d → 2 < n → (choosePlan d n cpu o).parallel = o ∧
      (o = true → (choosePlan d n cpu o).workerCount = min cpu 8)) ∧
    (o = false → (choosePlan d n cpu o).parallel = false) := by
  refine ⟨fun h => ?_, fun h hn => ?_, fun h hn => ?_, fun h => ?_⟩
  · simp [choosePlan, determineParallel, h]
  · simp [choosePlan, determineParallel, not_lt.mpr h, hn]
  · constructor
    · simp [choosePlan, determineParallel, not_lt.mpr h, not_le.mpr hn]
    · intro ho
      simp [choosePlan, determineParallel, not_lt.mpr h, not_le.mpr hn, ho]
  · subst h
    by_cases hd : d < 50
    · simp [choosePlan, determineParallel, hd]
    · by_cases hn : n ≤ 2 <;> simp [choosePlan, determineParallel, hd, hn]

/-- C3 witness: slow disk with opt-in gives a sequential plan; fast disk,
five columns and opt-in gives a parallel plan with `min(4, 8)` workers. -/
theorem choosePlan_policy_witness :
    (choosePlan 40 5 4 true).parallel = false ∧
    ((choosePlan 60 5 4 true).parallel = true ∧
      (choosePlan 60 5 4 true).workerCount = min 4 8) :=
  ⟨(choosePlan_policy 40 5 4 true).1 (by norm_num),
   ((choosePlan_policy 60 5 4 true).2.2.1 (by norm_num) (by norm_num)).1,
   ((choosePlan_policy 60 5 4 true).2.2.1 (by norm_num) (by norm_num)).2 rfl⟩

/-- C4 (a code bug relative to the claim): when a chunk write raises — here
the very first chunk — the exception propagates and the scratch file is NOT
removed, because `os.remove` sits after the write loop with no
`try`/`finally`; on the success path the scratch file is removed. -/
theorem scratch_file_left_behind_on_write_failure :
    test_disk_write_speed (fun i => decide (0 < i)) 1 = (.error (), true) ∧
    test_disk_write_speed (fun _ => true) 1 = (.ok 100, false) := by
  constructor
  · rfl
  · have hc : (List.range 100).all (fun _ => true) = true := by decide
    simp only [test_disk_write_speed, hc, if_true]
    norm_num

theorem groupVariance_eq_none_iff (rows : List MergedRow) (f : ℕ) (c : String) :
    groupVariance rows f c = none ↔ groupCount rows f c < 2 := by
  unfold groupVariance groupCount
  dsimp only
  split
  · rename_i h
    simp [h]
  · rename_i h
    simp [h]

theorem groupVariance_nonneg (rows : List MergedRow) (f : ℕ) (c : String) (v : ℚ)
    (h : groupVariance rows f c = some v) : 0 ≤ v := by
  unfold groupVariance at h
  dsimp only at h
  split at h
  · exact absurd h (by simp)
  · injection h with h
    rw [← h]
    apply div_nonneg
    · apply List.sum_nonneg
      intro x hx
      obtain ⟨y, _, rfl⟩ := List.mem_map.mp hx
      positivity
    · positivity

/-- C6: the standard deviation and the standard error of the mean of a
`Frame`/field group are `NaN` exactly when the group has fewer than 2
contributing (non-null) entries, and defined and non-negative when it has 2
or more.  `std`/`sem` are represented by their squares (`groupVariance`,
`groupSemSq`); taking square roots preserves both definedness and
non-negativity. -/
theorem std_sem_defined_iff (rows : List MergedRow) (f : ℕ) (c : String) :
    (groupVariance rows f c = none ↔ groupCount rows f c < 2) ∧
    (groupSemSq rows f c = none ↔ groupCount rows f c < 2) ∧
    (2 ≤ groupCount rows f c →
      ∃ v w, groupVariance rows f c = some v ∧ 0 ≤ v ∧
        groupSemSq rows f c = some w ∧ 0 ≤ w) := by
  refine ⟨groupVariance_eq_none_iff rows f c, ?_, ?_⟩
  · rw [← groupVariance_eq_none_iff]
    unfold groupSemSq
    cases groupVariance rows f c <;> simp
  · intro hge
    have hne : ¬ groupVariance rows f c = none := by
      rw [groupVariance_eq_none_iff]
      omega
    obtain ⟨v, hv⟩ := Option.ne_none_iff_exists'.mp hne
    have h0 := groupVariance_nonneg rows f c v hv
    refine ⟨v, v / ((groupCount rows f c : ℕ) : ℚ), hv, h0, ?_, ?_⟩
    · rw [groupSemSq, hv]
      rfl
    · apply div_nonneg h0
      positivity

/-- C6 witness: the example dataset's frame 1 has two contributing rows. -/
theorem std_sem_defined_iff_witness :
    2 ≤ groupCount exampleRows 1 "Diameter" ∧
    (∃ v w, groupVariance exampleRows 1 "Diameter" = some v ∧ 0 ≤ v ∧
      groupSemSq exampleRows 1 "Diameter" = some w ∧ 0 ≤ w) :=
  ⟨by decide, (std_sem_defined_iff exampleRows 1 "Diameter").2.2 (by decide)⟩

theorem getD_map_of_lt {α β : Type} (g : α → β) (l : List α) (j : ℕ) (hj : j < l.length)
    (d : β) (d0 : α) : (l.map g).getD j d = g (l.getD j d0) := by
  rw [List.getD_eq_getElem?_getD, List.getElem?_map, List.getElem?_eq_getElem hj,
    List.getD_eq_getElem?_getD, List.getElem?_eq_getElem hj]
  rfl

theorem statBlock_length (rows : List MergedRow) (f : ℕ) (c : String) :
    (statBlock rows f c).length = 4 := rfl

theorem flatten_statBlocks_getD (rows : List MergedRow) (f : ℕ) :
    ∀ (cols : List String) (j : ℕ), j < cols.length →
      ((cols.map fun c => statBlock rows f c).flatten).getD (4 * j) Value.nan
        = groupMean rows f (cols.getD j "")
  | [], j, hj => absurd hj (by simp)
  | c :: cs, 0, _ => by
      simp [statBlock]
  | c :: cs, j + 1, hj => by
      have hrest := flatten_statBlocks_getD rows f cs j (by simpa using hj)
      simp only [List.map_cons, List.flatten_cons]
      have h4 : 4 * (j + 1) = 4 * j + 4 := by ring
      rw [h4, List.getD_eq_getElem?_getD,
        List.getElem?_append_right (by rw [statBlock_length]; omega)]
      rw [statBlock_length, show 4 * j + 4 - 4 = 4 * j from by omega,
        ← List.getD_eq_getElem?_getD]
      simpa using hrest

/-- C2: for every frame position `i` and selected-field position `j`, the
mean entry of the flattened statistics table (field `4 * j + 1` of row `i`,
the `{field}_mean` column) equals the corresponding entry of the mean-only
per-frame projection (field `j + 1` of row `i`): the two derived views agree
on all means. -/
theorem mean_views_agree (rows : List MergedRow) (cols : List String) (i j : ℕ)
    (hi : i < (framesOf rows).length) (hj : j < cols.length) :
    ((flatStatsTable rows cols).getD i []).getD (4 * j + 1) Value.nan
      = ((averageTable rows cols).getD i []).getD (j + 1) Value.nan := by
  have hsome : (framesOf rows)[i]? = some ((framesOf rows).get ⟨i, hi⟩) := by
    rw [List.getElem?_eq_getElem hi]
    rfl
  have h1 : (flatStatsTable rows cols).getD i []
      = Value.num ((framesOf rows).get ⟨i, hi⟩)
          :: (cols.map fun c => statBlock rows ((framesOf rows).get ⟨i, hi⟩) c).flatten := by
    rw [flatStatsTable, List.getD_eq_getElem?_getD, List.getElem?_map, hsome]
    rfl
  have h2 : (averageTable rows cols).getD i []
      = Value.num ((framesOf rows).get ⟨i, hi⟩)
          :: cols.map fun c => groupMean rows ((framesOf rows).get ⟨i, hi⟩) c := by
    rw [averageTable, List.getD_eq_getElem?_getD, List.getElem?_map, hsome]
    rfl
  rw [h1, h2, List.getD_cons_succ, List.getD_cons_succ,
    flatten_statBlocks_getD rows _ cols j hj,
    getD_map_of_lt (fun c => groupMean rows ((framesOf rows).get ⟨i, hi⟩) c) cols j hj
      Value.nan ""]

/-- C2 witness: on the example dataset, frame position 0 and field position 0. -/
theorem mean_views_agree_witness :
    (0 < (framesOf exampleRows).length ∧ 0 < (["Diameter"] : List String).length) ∧
    ((flatStatsTable exampleRows ["Diameter"]).getD 0 []).getD (4 * 0 + 1) Value.nan
      = ((averageTable exampleRows ["Diameter"]).getD 0 []).getD (0 + 1) Value.nan :=
  ⟨⟨by decide, by decide⟩,
   mean_views_agree exampleRows ["Diameter"] 0 0 (by decide) (by decide)⟩

theorem assignFrames_getD (interval : ℚ) (files : List CsvFile) (i : ℕ)
    (hi : i < files.length) :
    (assignFrames interval files).getD i default
      = ⟨i + 1, i * interval, i * interval / 60, files.get ⟨i, hi⟩⟩ := by
  rw [List.getD_eq_getElem?_getD, assignFrames_getElem?, List.getElem?_eq_getElem hi]
  rfl

/-- C7: the artifacts of a run are a deterministic function of the input
files, the selected columns, the interval, the base name and the timestamp —
they do not depend on the measured disk throughput, the CPU load or the CPU
count, which feed only the execution plan and the console diagnostics. -/
theorem artifacts_deterministic (files : List CsvFile) (cols : List String) (interval : ℚ)
    (useParallel : Bool) (baseName timestamp : String) (d₁ d₂ c₁ c₂ : ℚ) (cpu₁ cpu₂ : ℕ) :
    (reindex_and_analyze files cols interval useParallel baseName timestamp d₁ c₁ cpu₁).map
        Output.artifacts
      = (reindex_and_analyze files cols interval useParallel baseName timestamp d₂ c₂ cpu₂).map
        Output.artifacts := by
  unfold reindex_and_analyze
  by_cases hf : files = []
  · simp [hf]
  · simp only [if_neg hf]
    cases h1 : selectForGroupby (mergedColumns (discoverFiles files)) cols with
    | error e => simp [h1]
    | ok u =>
      cases h2 : checkSelectedColumns (mergedColumns (discoverFiles files)) cols with
      | error e => simp [h1, h2]
      | ok u2 =>
        simp only [h1, h2]
        rfl

/-- C10 (implicit): the artifacts — raw, summary and chart — are identical
whether the caller's parallel opt-in flag is true or false; and on every
successful run the per-file parsing order is the lexicographically sorted
file list, regardless of the flag. -/
theorem parallel_flag_inert (files : List CsvFile) (cols : List String) (interval : ℚ)
    (baseName timestamp : String) (d c : ℚ) (cpu : ℕ) :
    (reindex_and_analyze files cols interval true baseName timestamp d c cpu).map
        Output.artifacts
      = (reindex_and_analyze files cols interval false baseName timestamp d c cpu).map
        Output.artifacts ∧
    ∀ (p : Bool) (o : Output),
      reindex_and_analyze files cols interval p baseName timestamp d c cpu = .ok o →
        o.processedOrder = (discoverFiles files).map CsvFile.name ∧
        o.processedOrder.Sorted (fun a b : String => a ≤ b) := by
  constructor
  · unfold reindex_and_analyze
    by_cases hf : files = []
    · simp [hf]
    · simp only [if_neg hf]
      cases h1 : selectForGroupby (mergedColumns (discoverFiles files)) cols with
      | error e => simp [h1]
      | ok u =>
        cases h2 : checkSelectedColumns (mergedColumns (discoverFiles files)) cols with
        | error e => simp [h1, h2]
        | ok u2 =>
          simp only [h1, h2]
          rfl
  · intro p o h
    have horder : o.processedOrder = (discoverFiles files).map CsvFile.name := by
      unfold reindex_and_analyze at h
      split at h
      · exact absurd h (by simp)
      · split at h
        · exact absurd h (by simp)
        · split at h
          · exact absurd h (by simp)
          · split at h
            · exact absurd h (by simp)
            · injection h with h2
              rw [← h2]
    refine ⟨horder, ?_⟩
    rw [horder]
    exact List.pairwise_map.mpr (discoverFiles_sorted files)

/-- C10 witness: a concrete run with two files. -/
theorem parallel_flag_inert_witness :
    (reindex_and_analyze [fileB, fileA] ["Diameter"] 5 true "R2" "t" 100 10 4).map
        Output.artifacts
      = (reindex_and_analyze [fileB, fileA] ["Diameter"] 5 false "R2" "t" 100 10 4).map
        Output.artifacts ∧
    ((extractOutput
        (reindex_and_analyze [fileB, fileA] ["Diameter"] 5 true "R2" "t" 100 10 4)).processedOrder
       = (discoverFiles [fileB, fileA]).map CsvFile.name ∧
     (extractOutput
        (reindex_and_analyze [fileB, fileA] ["Diameter"] 5 true "R2" "t" 100 10 4)).processedOrder.Sorted
       (fun a b : String => a ≤ b)) :=
  ⟨(parallel_flag_inert [fileB, fileA] ["Diameter"] 5 "R2" "t" 100 10 4).1,
   (parallel_flag_inert [fileB, fileA] ["Diameter"] 5 "R2" "t" 100 10 4).2 true _ rfl⟩

/-- C8: on every successful run the raw-data artifact is exactly three
sections in order: the full merged dataset with a header row, one separator
row carrying the sentinel `"NaN"` in place of every field, and the mean-only
per-frame table with its own header. -/
theorem raw_artifact_three_sections (files : List CsvFile) (cols : List String)
    (interval : ℚ) (p : Bool) (baseName timestamp : String) (d c : ℚ) (cpu : ℕ)
    (o : Output)
    (h : reindex_and_analyze files cols interval p baseName timestamp d c cpu = .ok o) :
    o.artifacts.raw
      = ((mergedColumns (discoverFiles files)).map Value.str
            :: (mergeRows interval (discoverFiles files)).map
                (rowFields (mergedColumns (discoverFiles files))))
        ++ [List.replicate (mergedColumns (discoverFiles files)).length (Value.str "NaN")]
        ++ (("Frame" :: cols).map Value.str
            :: averageTable (mergeRows interval (discoverFiles files)) cols) := by
  unfold reindex_and_analyze at h
  split at h
  · exact absurd h (by simp)
  · split at h
    · exact absurd h (by simp)
    · split at h
      · exact absurd h (by simp)
      · split at h
        · exact absurd h (by simp)
        · injection h with h2
          rw [← h2]

/-- C8 witness: the concrete two-file run. -/
theorem raw_artifact_three_sections_witness :
    reindex_and_analyze [fileB, fileA] ["Diameter"] 5 false "R2" "t" 100 10 4
      = .ok (extractOutput
          (reindex_and_analyze [fileB, fileA] ["Diameter"] 5 false "R2" "t" 100 10 4)) ∧
    (extractOutput
        (reindex_and_analyze [fileB, fileA] ["Diameter"] 5 false "R2" "t" 100 10 4)).artifacts.raw
      = ((mergedColumns (discoverFiles [fileB, fileA])).map Value.str
            :: (mergeRows 5 (discoverFiles [fileB, fileA])).map
                (rowFields (mergedColumns (discoverFiles [fileB, fileA]))))
        ++ [List.replicate (mergedColumns (discoverFiles [fileB, fileA])).length
              (Value.str "NaN")]
        ++ (("Frame" :: ["Diameter"]).map Value.str
            :: averageTable (mergeRows 5 (discoverFiles [fileB, fileA])) ["Diameter"]) :=
  ⟨rfl, raw_artifact_three_sections [fileB, fileA] ["Diameter"] 5 false "R2" "t" 100 10 4 _ rfl⟩

/-- C1 counterexample: selecting `"Area"` over a file that lacks it makes the
run fail with the pandas `KeyError` raised by the column selection inside the
raw-artifact averages computation (line 218), not with the `ValueError` of
the explicit check (lines 224-226) — so the claimed `ValidationError` path is
not what runs, and the error fires while the raw-artifact write is already
consuming the missing columns. -/
theorem missing_column_keyerror_counterexample :
    reindex_and_analyze [fileA] ["Area"] 5 false "R2" "t" 100 10 4
      = .error (.keyError ["Area"]) ∧
    (Except.error (PipelineError.keyError ["Area"]) : Except PipelineError Output)
      ≠ .error (.valueError ["Area"]) := by
  refine ⟨rfl, fun hcontra => ?_⟩
  injection hcontra with h
  exact PipelineError.noConfusion h

/-- C1 as amended: whenever some selected column is absent from the merged
schema, the pipeline fails with `KeyError` enumerating all the missing
column names — raised by the groupby column selection during the raw-artifact
write — and the explicit enumerating `ValueError` check is never reached. -/
theorem missing_columns_fail_with_keyerror (files : List CsvFile) (cols : List String)
    (interval : ℚ) (p : Bool) (baseName timestamp : String) (d c : ℚ) (cpu : ℕ)
    (hne : files ≠ [])
    (hmiss : missingColumns (mergedColumns (discoverFiles files)) cols ≠ []) :
    reindex_and_analyze files cols interval p baseName timestamp d c cpu
      = .error (.keyError (missingColumns (mergedColumns (discoverFiles files)) cols)) := by
  unfold reindex_and_analyze
  rw [if_neg hne]
  rw [show selectForGroupby (mergedColumns (discoverFiles files)) cols
      = .error (.keyError (missingColumns (mergedColumns (discoverFiles files)) cols)) from by
    unfold selectForGroupby
    rw [if_neg hmiss]]

/-- C1 witness: the amended claim at the concrete missing-column run. -/
theorem missing_columns_fail_with_keyerror_witness :
    (([fileA] : List CsvFile) ≠ [] ∧
      missingColumns (mergedColumns (discoverFiles [fileA])) ["Area"] ≠ []) ∧
    reindex_and_analyze [fileA] ["Area"] 5 false "R2" "t" 100 10 4
      = .error (.keyError (missingColumns (mergedColumns (discoverFiles [fileA])) ["Area"])) :=
  ⟨⟨by decide, by decide⟩,
   missing_columns_fail_with_keyerror [fileA] ["Area"] 5 false "R2" "t" 100 10 4
     (by decide) (by decide)⟩

/-- C9 counterexample: with the non-positive interval `-5` the pipeline does
not reject the configuration — the run succeeds and the frame assignment
proceeds, giving the second file `TimeSec = -5`. -/
theorem nonpositive_interval_not_rejected :
    succeeded (reindex_and_analyze [fileA, fileB] ["Diameter"] (-5) false "R2" "t" 100 10 4)
      = true ∧
    (assignFrames (-5) (discoverFiles [fileA, fileB])).map FramedFile.timeSec = [0, -5] := by
  constructor
  · rfl
  · have h1 : discoverFiles [fileA, fileB] = [fileA, fileB] := rfl
    rw [h1]
    norm_num [assignFrames, List.enum, List.enumFrom]

/-- C9 as amended: the frame interval is never validated — whether a run
succeeds does not depend on the interval at all, and for every interval
(positive or not) the pipeline proceeds to assign
`TimeSec = (i - 1) * interval` and `TimeMin = TimeSec / 60`. -/
theorem interval_never_validated (files : List CsvFile) (cols : List String)
    (i₁ i₂ : ℚ) (p : Bool) (baseName timestamp : String) (d c : ℚ) (cpu : ℕ) :
    succeeded (reindex_and_analyze files cols i₁ p baseName timestamp d c cpu)
      = succeeded (reindex_and_analyze files cols i₂ p baseName timestamp d c cpu) ∧
    ∀ k, k < files.length →
      ((assignFrames i₁ (discoverFiles files)).getD k default).timeSec = k * i₁ ∧
      ((assignFrames i₁ (discoverFiles files)).getD k default).timeMin = k * i₁ / 60 := by
  constructor
  · unfold reindex_and_analyze
    by_cases hf : files = []
    · simp [hf]
    · simp only [if_neg hf]
      cases h1 : selectForGroupby (mergedColumns (discoverFiles files)) cols with
      | error e => simp [h1, succeeded]
      | ok u =>
        cases h2 : checkSelectedColumns (mergedColumns (discoverFiles files)) cols with
        | error e => simp [h1, h2, succeeded]
        | ok u2 =>
          simp only [h1, h2]
          rfl
  · intro k hk
    have hk' : k < (discoverFiles files).length := by rwa [length_discoverFiles]
    rw [assignFrames_getD i₁ (discoverFiles files) k hk']
    exact ⟨rfl, rfl⟩

/-- C9 witness: the amended claim at a concrete run with interval `-5`. -/
theorem interval_never_validated_witness :
    0 < ([fileA] : List CsvFile).length ∧
    succeeded (reindex_and_analyze [fileA] ["Diameter"] (-5) false "R2" "t" 100 10 4)
      = succeeded (reindex_and_analyze [fileA] ["Diameter"] 5 false "R2" "t" 100 10 4) ∧
    ((assignFrames (-5) (discoverFiles [fileA])).getD 0 default).timeSec = 0 * (-5) ∧
    ((assignFrames (-5) (discoverFiles [fileA])).getD 0 default).timeMin = 0 * (-5) / 60 :=
  ⟨by decide,
   (interval_never_validated [fileA] ["Diameter"] (-5) 5 false "R2" "t" 100 10 4).1,
   (interval_never_validated [fileA] ["Diameter"] (-5) 5 false "R2" "t" 100 10 4).2 0
     (by decide)⟩

end IceMorphometry
